import Mathlib

/-
Verification of the search-api repository: a shallow embedding of the
OmniSearchService orchestrator (src/search/search.py), its enrichment
pipeline, and the HTTP layer (src/main.py), together with theorems
settling the behavioural claims about fan-out, error isolation,
enrichment, caching and authentication.

Modelling conventions:
  - Network-facing collaborators (provider adapters, the content fetcher,
    the LLM completion client) are oracles: functions returning
    `Except String _`, where `Except.error` models a raised Python
    exception.
  - The sequential async control flow of the orchestrator is modelled as a
    fold over the engine registry; each awaited collaborator call appends
    an event to a trace, so that invocation order and batching are
    provable facts.
  - Python `str.strip` / `str.lower` are modelled over `String.data`
    (executable in the kernel, unlike `String.trim` / `String.toLower`).
-/

/-- Result record, from `SearchResult` in src/search/search.py.  The Python
declares `content: str = None` and `index: int = None`; absent values are
modelled as `none`. -/
structure SearchResult where
  title : String
  link : String
  snippet : String
  content : Option String := none
  source_engine : String
  index : Option Nat := none
deriving DecidableEq, Repr

/-- Engine configuration, from `SearchEngineConfig` in src/search/search.py
(`params: Dict[str, Any]` is modelled as string pairs; the orchestrator
never reads it). -/
structure SearchEngineConfig where
  api_key : String
  endpoint : String := ""
  params : List (String × String) := []
deriving DecidableEq, Repr

/-- Fetched page, from `FetchedContent` in src/search/fetcher.py.  The
orchestrator reads only `clean_text`. -/
structure FetchedContent where
  url : String
  raw_content : String := ""
  clean_text : String := ""
  status_code : Nat := 0
  error : String := ""
deriving DecidableEq, Repr

/-- One role-tagged chat message, as passed to `LLMClient.completion` in
src/search/llm.py. -/
structure ChatMessage where
  role : String
  content : String
deriving DecidableEq, Repr

/-- Oracle for a provider adapter's `search(query, **kwargs)` coroutine
(GoogleSearch / BingSearch / DuckDuckGoSearch in src/search/search.py are
direct HTTP or library pass-throughs, out of scope per the spec).  The
kwargs the adapters read reduce to `max_results`; `Except.error` models a
raised exception (non-2xx, API failure, ...). -/
def EngineBehavior : Type := String → Nat → Except String (List SearchResult)

/-- Oracle for `ContentFetcher.fetch` (src/search/fetcher.py) as called
through `asyncio.to_thread` by the orchestrator; `Except.error` models a
raised exception from a fetcher implementation. -/
def Fetcher : Type := String → Except String FetchedContent

/-- Oracle for `LLMClient.completion(messages)` (src/search/llm.py)
followed by the caller's `c.choices[0].message.content` extraction, both
of which sit inside the caller's `try` block; `Except.error` models an
exception raised by either step. -/
def LLMClient : Type := List ChatMessage → Except String String

/-- Orchestrator state, from `OmniSearchService.__init__` in
src/search/search.py: an insertion-ordered registry of named engines plus
the fetcher and completion collaborators.  The Python `Dict[str,
SearchEngine]` iterates in insertion order, modelled as an association
list. -/
structure OmniSearchService where
  engines : List (String × EngineBehavior)
  fetcher : Fetcher
  llm_cli : LLMClient

/-- Registry insertion, from `OmniSearchService.add_engine`: Python dict
assignment replaces an existing key in place (keeping its position) and
otherwise appends. -/
def OmniSearchService.add_engine (svc : OmniSearchService) (name : String)
    (engine : EngineBehavior) : OmniSearchService :=
  { svc with engines :=
      if svc.engines.any (fun p => p.1 = name) then
        svc.engines.map (fun p => if p.1 = name then (name, engine) else p)
      else svc.engines ++ [(name, engine)] }

/-- The fixed system instruction sent with every enrichment completion,
from `OmniSearchService._fetch_content_by_search_result` in
src/search/search.py. -/
def cleanerSystemPrompt : String :=
  "你是一个 HTML 数据清理员，请整理我提供的 HTML 文本中的有效信息，如果没有则返回 None"

/-- Enrichment of a single result, from
`OmniSearchService._fetch_content_by_search_result`: fetch the linked
page, send its clean text with the fixed system prompt to the completion
client, and store the reply in `content`; any exception from either step
is caught and the result is returned unchanged. -/
def fetchContentBySearchResult (fetcher : Fetcher) (llm_cli : LLMClient)
    (r : SearchResult) : SearchResult :=
  match fetcher r.link with
  | Except.error _ => r
  | Except.ok raw_content =>
    match llm_cli [⟨"system", cleanerSystemPrompt⟩, ⟨"user", raw_content.clean_text⟩] with
    | Except.error _ => r
    | Except.ok c => { r with content := some c }

/-- Batch enrichment, from `OmniSearchService._fetch_content`: one
`asyncio.gather` over the per-result tasks, i.e. a map.  The function's
`except` branch (returning `[]`) is unreachable here because every
per-result task catches its own exceptions, so the gather never raises;
the model therefore has no failing branch. -/
def fetchContentAll (fetcher : Fetcher) (llm_cli : LLMClient)
    (results : List SearchResult) : List SearchResult :=
  results.map (fetchContentBySearchResult fetcher llm_cli)

/-- Method view of `_fetch_content_by_search_result` on the service. -/
def OmniSearchService._fetch_content_by_search_result (svc : OmniSearchService)
    (r : SearchResult) : SearchResult :=
  fetchContentBySearchResult svc.fetcher svc.llm_cli r

/-- Method view of `_fetch_content` on the service. -/
def OmniSearchService._fetch_content (svc : OmniSearchService)
    (results : List SearchResult) : List SearchResult :=
  fetchContentAll svc.fetcher svc.llm_cli results

/-- Index assignment from an offset, modelling the loop
`for i, r in enumerate(results): r.index = i` in
`OmniSearchService.search`. -/
def assignIndicesFrom (i : Nat) : List SearchResult → List SearchResult
  | [] => []
  | r :: rs => { r with index := some i } :: assignIndicesFrom (i + 1) rs

/-- Per-engine index assignment (enumerate starts at 0). -/
def assignIndices (results : List SearchResult) : List SearchResult :=
  assignIndicesFrom 0 results

/-- Observable events of one orchestrator run: an engine's `search`
coroutine being awaited, and one `asyncio.gather` enrichment batch over
the listed links. -/
inductive SearchEvent where
  | engineSearch (name : String)
  | enrichBatch (links : List String)
deriving DecidableEq, Repr

/-- One iteration of the `for engine_name, engine in self.engines.items()`
loop body of `OmniSearchService.search`: await the engine's search (on
exception the engine contributes nothing), assign per-engine indices,
optionally enrich that engine's batch, and extend the accumulator. -/
def searchStep (fetcher : Fetcher) (llm_cli : LLMClient) (query : String)
    (maxResults : Nat) (fetchContentFlag : Bool)
    (acc : List SearchResult × List SearchEvent) (p : String × EngineBehavior) :
    List SearchResult × List SearchEvent :=
  match p.2 query maxResults with
  | Except.error _ => (acc.1, acc.2 ++ [SearchEvent.engineSearch p.1])
  | Except.ok results =>
    if fetchContentFlag then
      (acc.1 ++ fetchContentAll fetcher llm_cli (assignIndices results),
       acc.2 ++ [SearchEvent.engineSearch p.1,
                 SearchEvent.enrichBatch ((assignIndices results).map (fun r => r.link))])
    else
      (acc.1 ++ assignIndices results,
       acc.2 ++ [SearchEvent.engineSearch p.1])

/-- Fan-out search, from `OmniSearchService.search`: fold the loop body
over the registry in insertion order, starting from an empty `all_results`
list; the second component is the event trace of the run. -/
def OmniSearchService.search (svc : OmniSearchService) (query : String)
    (maxResults : Nat) (fetchContentFlag : Bool) :
    List SearchResult × List SearchEvent :=
  svc.engines.foldl (searchStep svc.fetcher svc.llm_cli query maxResults fetchContentFlag)
    ([], [])

/-- Errors observable from `search_by_engine`: the explicit `ValueError`
for an unconfigured engine name, or an exception propagating uncaught from
the engine itself. -/
inductive SearchError where
  | valueError (msg : String)
  | engineError (msg : String)
deriving DecidableEq, Repr

/-- Single-engine search, from `OmniSearchService.search_by_engine`: raise
`ValueError` when the name is not registered, otherwise invoke that engine
(exceptions propagate uncaught at this layer) and optionally enrich.  The
Python body forgets to `await` the engine's coroutine, which breaks the
success path at runtime; the model treats the call as awaited, which is
immaterial to the unconfigured-name branch.  The method contains no
assignment to `self.engines`, so the state component is returned
unchanged. -/
def OmniSearchService.search_by_engine (svc : OmniSearchService)
    (engine_name : String) (query : String) (maxResults : Nat)
    (fetchContentFlag : Bool) :
    (Except SearchError (List SearchResult)) × OmniSearchService :=
  match svc.engines.find? (fun p => p.1 = engine_name) with
  | none =>
    (Except.error (SearchError.valueError ("Engine " ++ engine_name ++ " not configured")), svc)
  | some p =>
    match p.2 query maxResults with
    | Except.error e => (Except.error (SearchError.engineError e), svc)
    | Except.ok results =>
      (Except.ok (if fetchContentFlag then fetchContentAll svc.fetcher svc.llm_cli results
                  else results), svc)

/-- Results one engine contributes to a run of `OmniSearchService.search`
(empty when its search raises). -/
def perEngineResults (fetcher : Fetcher) (llm_cli : LLMClient) (query : String)
    (maxResults : Nat) (fetchContentFlag : Bool) (p : String × EngineBehavior) :
    List SearchResult :=
  match p.2 query maxResults with
  | Except.error _ => []
  | Except.ok results =>
    if fetchContentFlag then fetchContentAll fetcher llm_cli (assignIndices results)
    else assignIndices results

/-- Events one engine contributes to the trace of a run of
`OmniSearchService.search`. -/
def perEngineEvents (query : String) (maxResults : Nat) (fetchContentFlag : Bool)
    (p : String × EngineBehavior) : List SearchEvent :=
  match p.2 query maxResults with
  | Except.error _ => [SearchEvent.engineSearch p.1]
  | Except.ok results =>
    if fetchContentFlag then
      [SearchEvent.engineSearch p.1,
       SearchEvent.enrichBatch ((assignIndices results).map (fun r => r.link))]
    else [SearchEvent.engineSearch p.1]

/-- Python `str.strip()` (no argument): drop whitespace from both ends.
Implemented over the character list so the kernel can evaluate it. -/
def pyStrip (s : String) : String :=
  String.mk (((s.data.dropWhile Char.isWhitespace).reverse.dropWhile Char.isWhitespace).reverse)

/-- Python `str.lower()`, over the character list so the kernel can
evaluate it. -/
def pyLower (s : String) : String :=
  String.mk (s.data.map Char.toLower)

/-- Request body of POST /v1/search, from `SearchRequest` in src/main.py,
with the same defaults. -/
structure SearchRequest where
  query : String
  max_results : Nat := 10
  fetch_content : Bool := false
  search_engines : List String := ["duckduckgo"]
deriving DecidableEq, Repr

/-- Response envelope, from `SearchResponse` in src/main.py. -/
structure SearchResponse where
  data : List SearchResult
  code : Int
  message : String
deriving DecidableEq, Repr

/-- The external Redis store, restricted to the two operations the handler
uses (`get` / `setex`): a key-value map whose entries stand for unexpired
values; TTL expiry is outside the model, so two requests hitting the same
entry are by construction within the TTL window.  The cached JSON blob is
modelled as the result list itself: `json.dumps` of `model_dump()` per
result followed by `json.loads` is lossless for these field types. -/
def ResponseCache : Type := String → Option (List SearchResult)

/-- The empty cache. -/
def emptyCache : ResponseCache := fun _ => none

/-- Redis GET, from `RedisClient.get` in src/cache/redis.py. -/
def cacheGet (cache : ResponseCache) (key : String) : Option (List SearchResult) :=
  cache key

/-- Redis SETEX, from `RedisClient.setex` in src/cache/redis.py: bind the
value under the key (the TTL argument only bounds expiry, which the model
does not track). -/
def cacheSetex (cache : ResponseCache) (key : String) (value : List SearchResult) :
    ResponseCache :=
  fun k => if k = key then some value else cache k

/-- Python `str(bool)`. -/
def pyBoolRepr (b : Bool) : String :=
  if b then "True" else "False"

/-- Python `str(list_of_str)`: elements in single quotes, comma-space
separated, in square brackets. -/
def pyStrListRepr (l : List String) : String :=
  "[" ++ String.intercalate ", " (l.map (fun s => "'" ++ s ++ "'")) ++ "]"

/-- The pre-hash request signature, from src/main.py:
`f-string of query.strip(), max_results, fetch_content, search_engines`. -/
def requestSignature (req : SearchRequest) : String :=
  pyStrip req.query ++ toString req.max_results ++ pyBoolRepr req.fetch_content
    ++ pyStrListRepr req.search_engines

/-- The cache key, from src/main.py: the namespaced hex MD5 digest of the
request signature.  MD5 itself is an opaque parameter of the model: both
occurrences of the key in one pair of identical requests apply the same
function to the same signature. -/
def cacheKey (md5hex : String → String) (req : SearchRequest) : String :=
  "search_api.search." ++ md5hex (requestSignature req)

/-- Engine registration loop of the handler in src/main.py: only the
literal names google and duckduckgo register an engine (the bing branch is
commented out in the source); every other name falls through silently.
The adapter constructed for a recognized name is supplied by the
`mkEngine` oracle (its behaviour wraps a vendor API). -/
def registerEngines (mkEngine : String → EngineBehavior) (o : OmniSearchService)
    (names : List String) : OmniSearchService :=
  names.foldl (fun o engine =>
    if engine = "google" then o.add_engine "google" (mkEngine "google")
    else if engine = "duckduckgo" then o.add_engine "duckduckgo" (mkEngine "duckduckgo")
    else o) o

/-- The POST /v1/search handler, from `search` in src/main.py (after the
auth dependency has passed): look up the cache key; on a hit answer from
the cache without touching any provider; on a miss build the service,
register the requested engines, run the fan-out on the stripped query, and
write the result list through to the cache only when it is non-empty.  The
third component is the provider event trace of this request (empty on a
cache hit). -/
def searchHandler (md5hex : String → String) (mkEngine : String → EngineBehavior)
    (fetcher : Fetcher) (llm_cli : LLMClient) (cache : ResponseCache)
    (req : SearchRequest) : SearchResponse × ResponseCache × List SearchEvent :=
  let key := cacheKey md5hex req
  match cacheGet cache key with
  | some cached => ({ data := cached, code := 0, message := "success" }, cache, [])
  | none =>
    let o := registerEngines mkEngine
      { engines := [], fetcher := fetcher, llm_cli := llm_cli } req.search_engines
    let out := o.search (pyStrip req.query) req.max_results req.fetch_content
    ({ data := out.1, code := 0, message := "success" },
     if out.1.length > 0 then cacheSetex cache key out.1 else cache,
     out.2)

/-- The application's routes: GET /, HEAD /v1/health, POST /v1/search
(src/main.py registers exactly these three). -/
inductive ApiRoute where
  | root
  | health
  | searchRoute
deriving DecidableEq, Repr

/-- URL path of each route. -/
def routePath : ApiRoute → String
  | ApiRoute.root => "/"
  | ApiRoute.health => "/v1/health"
  | ApiRoute.searchRoute => "/v1/search"

/-- A parsed Authorization header as FastAPI's HTTPBearer sees it: the
scheme (text before the first space) and the credentials (the rest). -/
structure BearerCreds where
  scheme : String
  credentials : String
deriving DecidableEq, Repr

/-- FastAPI's `HTTPBearer()` security dependency with its default
`auto_error=True`, as instantiated by `security = HTTPBearer()` in
src/main.py: a missing header, an empty scheme or credentials, or a scheme
other than bearer (case-insensitive) is rejected with 403 before the
`auth` function body ever runs. -/
def httpBearerCheck (header : Option BearerCreds) : Except Nat BearerCreds :=
  match header with
  | none => Except.error 403
  | some c =>
    if c.scheme = "" ∨ c.credentials = "" then Except.error 403
    else if pyLower c.scheme ≠ "bearer" then Except.error 403
    else Except.ok c

/-- Body of the `auth` dependency in src/main.py: pass for whitelisted
paths, pass when the API_KEY environment value is unset or empty, and
otherwise require scheme Bearer (exact case) with credentials equal to the
API_KEY; failure is HTTP 403.  The unset and empty-string API_KEY cases
coincide (the code reads the variable with default empty string), so
`api_key = ""` models both. -/
def authBody (api_key : String) (path : String) (c : BearerCreds) : Except Nat Unit :=
  if path = "/" ∨ path = "/v1/health" then Except.ok ()
  else if api_key = "" then Except.ok ()
  else if c.scheme ≠ "Bearer" ∨ c.credentials ≠ api_key then Except.error 403
  else Except.ok ()

/-- Authorization outcome per route: the `auth` dependency (and with it
`Depends(security)`) is attached only to the /v1/search route in
src/main.py; the root and health handlers declare no dependency, so no
auth code runs for them at all. -/
def authorize (api_key : String) (route : ApiRoute) (header : Option BearerCreds) :
    Except Nat Unit :=
  match route with
  | ApiRoute.searchRoute =>
    match httpBearerCheck header with
    | Except.error code => Except.error code
    | Except.ok c => authBody api_key (routePath route) c
  | _ => Except.ok ()

/-- Whether an event is an enrichment batch. -/
def isEnrichBatch : SearchEvent → Bool
  | SearchEvent.enrichBatch _ => true
  | SearchEvent.engineSearch _ => false

/-- Whether every engine search in the trace happens before any
enrichment. -/
def allSearchesBeforeEnrichment : List SearchEvent → Bool
  | [] => true
  | SearchEvent.engineSearch _ :: rest => allSearchesBeforeEnrichment rest
  | SearchEvent.enrichBatch _ :: rest => rest.all isEnrichBatch

/-- The batching discipline asserted by the spec for one search run: all
engine searches complete first, then at most one enrichment barrier. -/
def singleBatchBarrier (trace : List SearchEvent) : Bool :=
  allSearchesBeforeEnrichment trace && Nat.ble (trace.countP isEnrichBatch) 1

/-- A concrete result with distinct fields, for witnesses. -/
def sampleResult (t : String) : SearchResult :=
  { title := t, link := "http://" ++ t, snippet := "snippet " ++ t,
    content := none, source_engine := "DuckDuckGo", index := none }

/-- A concrete engine returning two results. -/
def wEngineA : EngineBehavior :=
  fun _ _ => Except.ok [sampleResult "a1", sampleResult "a2"]

/-- A concrete engine returning one result. -/
def wEngineB : EngineBehavior :=
  fun _ _ => Except.ok [sampleResult "b1"]

/-- A concrete engine that always raises. -/
def wEngineBad : EngineBehavior :=
  fun _ _ => Except.error "HTTP 500"

/-- A concrete fetcher that always succeeds. -/
def wFetcher : Fetcher :=
  fun link => Except.ok { url := link, clean_text := "page text" }

/-- A concrete fetcher that always raises. -/
def wFetcherBad : Fetcher :=
  fun _ => Except.error "connection refused"

/-- A concrete completion client that always succeeds. -/
def wLLM : LLMClient :=
  fun _ => Except.ok "summary"

/-- A concrete completion client that always raises. -/
def wLLMBad : LLMClient :=
  fun _ => Except.error "rate limited"

/-- A concrete two-engine service. -/
def wSvc : OmniSearchService :=
  { engines := [("google", wEngineA), ("duckduckgo", wEngineB)],
    fetcher := wFetcher, llm_cli := wLLM }

/-- The per-engine outputs of wSvc. -/
def wOuts : List (List SearchResult) :=
  [[sampleResult "a1", sampleResult "a2"], [sampleResult "b1"]]

/-- A constant stand-in for the MD5 hex digest, adequate for witnesses
since identical requests produce identical keys under any function. -/
def wHash : String → String := fun _ => "d41d8cd98f00b204e9800998ecf8427e"

/-- Engine oracle used in cache witnesses: every adapter returns one
result. -/
def wMkEngine : String → EngineBehavior := fun _ => wEngineB

/-- Engine oracle whose adapters return no results. -/
def wMkEngineEmpty : String → EngineBehavior := fun _ => fun _ _ => Except.ok []

/-- A concrete request for the cache claims. -/
def wReq : SearchRequest :=
  { query := "weather", max_results := 1, fetch_content := false,
    search_engines := ["duckduckgo"] }

/-- A result with its `content` field cleared, for stating that
enrichment touches nothing else. -/
def eraseContent (r : SearchResult) : SearchResult :=
  { r with content := none }

/-- A concrete service whose fetcher always raises. -/
def wSvcFetchFail : OmniSearchService :=
  { engines := [], fetcher := wFetcherBad, llm_cli := wLLM }

/-- A concrete request naming only the unconfigured bing engine. -/
def wReqBing : SearchRequest :=
  { query := "q", max_results := 2, fetch_content := false,
    search_engines := ["bing"] }

theorem searchStep_foldl (fetcher : Fetcher) (llm_cli : LLMClient) (query : String)
    (maxResults : Nat) (fc : Bool) (engines : List (String × EngineBehavior)) :
    ∀ acc : List SearchResult × List SearchEvent,
      engines.foldl (searchStep fetcher llm_cli query maxResults fc) acc
        = (acc.1 ++ (engines.map (perEngineResults fetcher llm_cli query maxResults fc)).flatten,
           acc.2 ++ (engines.map (perEngineEvents query maxResults fc)).flatten) := by
  induction engines with
  | nil => intro acc; simp
  | cons p l ih =>
    intro acc
    rw [List.foldl_cons, ih]
    simp only [List.map_cons, List.flatten_cons]
    cases hp : p.2 query maxResults with
    | error e =>
      simp [searchStep, perEngineResults, perEngineEvents, hp, List.append_assoc]
    | ok results =>
      cases fc <;>
        simp [searchStep, perEngineResults, perEngineEvents, hp, List.append_assoc]

theorem search_characterization (svc : OmniSearchService) (query : String)
    (maxResults : Nat) (fc : Bool) :
    svc.search query maxResults fc
      = ((svc.engines.map (perEngineResults svc.fetcher svc.llm_cli query maxResults fc)).flatten,
         (svc.engines.map (perEngineEvents query maxResults fc)).flatten) := by
  rw [OmniSearchService.search, searchStep_foldl]
  simp

theorem assignIndicesFrom_length (i : Nat) (l : List SearchResult) :
    (assignIndicesFrom i l).length = l.length := by
  induction l generalizing i with
  | nil => rfl
  | cons r rs ih => simp [assignIndicesFrom, ih]

theorem assignIndices_length (l : List SearchResult) :
    (assignIndices l).length = l.length :=
  assignIndicesFrom_length 0 l

theorem assignIndicesFrom_indices (i : Nat) (l : List SearchResult) :
    (assignIndicesFrom i l).map (fun r => r.index)
      = (List.range' i l.length).map some := by
  induction l generalizing i with
  | nil => rfl
  | cons r rs ih => simp [assignIndicesFrom, List.range'_succ, ih]

theorem assignIndices_indices (l : List SearchResult) :
    (assignIndices l).map (fun r => r.index) = (List.range l.length).map some := by
  rw [assignIndices, assignIndicesFrom_indices, List.range_eq_range']

theorem fetchContentBySearchResult_cases (fetcher : Fetcher) (llm_cli : LLMClient)
    (r : SearchResult) :
    fetchContentBySearchResult fetcher llm_cli r = r
    ∨ ∃ c, fetchContentBySearchResult fetcher llm_cli r = { r with content := some c } := by
  cases h1 : fetcher r.link with
  | error e => exact Or.inl (by simp [fetchContentBySearchResult, h1])
  | ok raw =>
    cases h2 : llm_cli [⟨"system", cleanerSystemPrompt⟩, ⟨"user", raw.clean_text⟩] with
    | error e => exact Or.inl (by simp [fetchContentBySearchResult, h1, h2])
    | ok c => exact Or.inr ⟨c, by simp [fetchContentBySearchResult, h1, h2]⟩

theorem forall2_perEngineResults_ok (fetcher : Fetcher) (llm_cli : LLMClient)
    (query : String) (maxResults : Nat) :
    ∀ (engines : List (String × EngineBehavior)) (outs : List (List SearchResult)),
      List.Forall₂ (fun p out => p.2 query maxResults = Except.ok out) engines outs →
      engines.map (perEngineResults fetcher llm_cli query maxResults false)
        = outs.map assignIndices := by
  intro engines outs h
  induction h with
  | nil => rfl
  | cons h1 _ ih => simp [perEngineResults, h1, ih]

/-- C1: with every registered engine succeeding, the fan-out without
enrichment returns the concatenation, in registry insertion order, of each
engine's output with per-engine indices assigned; the combined length is
the sum of the per-engine counts, and each engine's block carries the
index column 0..k-1 in that engine's own return order. -/
theorem search_all_success_concat (svc : OmniSearchService) (query : String)
    (maxResults : Nat) (outs : List (List SearchResult))
    (h : List.Forall₂ (fun p out => p.2 query maxResults = Except.ok out)
      svc.engines outs) :
    (svc.search query maxResults false).1 = (outs.map assignIndices).flatten
    ∧ (svc.search query maxResults false).1.length = (outs.map List.length).sum
    ∧ ∀ out ∈ outs, (assignIndices out).map (fun r => r.index)
        = (List.range out.length).map some := by
  have h1 : (svc.search query maxResults false).1 = (outs.map assignIndices).flatten := by
    rw [search_characterization,
        forall2_perEngineResults_ok svc.fetcher svc.llm_cli query maxResults
          svc.engines outs h]
  refine ⟨h1, ?_, ?_⟩
  · rw [h1, List.length_flatten, List.map_map]
    congr 1
    apply List.map_congr_left
    intro out _
    simp [Function.comp, assignIndices_length]
  · intro out _
    exact assignIndices_indices out

/-- C1 witness: the two-engine service with concrete outputs. -/
theorem search_all_success_concat_witness :
    List.Forall₂ (fun (p : String × EngineBehavior) out => p.2 "q" 5 = Except.ok out)
      wSvc.engines wOuts
    ∧ ((wSvc.search "q" 5 false).1 = (wOuts.map assignIndices).flatten
       ∧ (wSvc.search "q" 5 false).1.length = (wOuts.map List.length).sum
       ∧ ∀ out ∈ wOuts, (assignIndices out).map (fun r => r.index)
           = (List.range out.length).map some) :=
  have h : List.Forall₂ (fun (p : String × EngineBehavior) out => p.2 "q" 5 = Except.ok out)
      wSvc.engines wOuts :=
    List.Forall₂.cons rfl (List.Forall₂.cons rfl List.Forall₂.nil)
  ⟨h, search_all_success_concat wSvc "q" 5 wOuts h⟩

/-- C2: an engine whose search raises contributes zero results, and the
overall result list is exactly the one obtained with that engine absent
from the registry, for any position of the failing engine and whether or
not enrichment is requested; the call is total, so it returns normally. -/
theorem search_failing_engine_isolated (fetcher : Fetcher) (llm_cli : LLMClient)
    (pre post : List (String × EngineBehavior)) (name : String)
    (bad : EngineBehavior) (query : String) (maxResults : Nat) (fc : Bool)
    (msg : String) (h : bad query maxResults = Except.error msg) :
    ((OmniSearchService.mk (pre ++ (name, bad) :: post) fetcher llm_cli).search
        query maxResults fc).1
      = ((OmniSearchService.mk (pre ++ post) fetcher llm_cli).search
          query maxResults fc).1 := by
  have hbad : perEngineResults fetcher llm_cli query maxResults fc (name, bad) = [] := by
    simp [perEngineResults, h]
  rw [search_characterization, search_characterization]
  simp [hbad]

/-- C2 witness: a raising engine ahead of a succeeding one. -/
theorem search_failing_engine_isolated_witness :
    wEngineBad "q" 5 = Except.error "HTTP 500"
    ∧ ((OmniSearchService.mk ([] ++ ("google", wEngineBad) :: [("duckduckgo", wEngineB)])
          wFetcher wLLM).search "q" 5 false).1
      = ((OmniSearchService.mk ([] ++ [("duckduckgo", wEngineB)])
          wFetcher wLLM).search "q" 5 false).1 :=
  ⟨rfl, search_failing_engine_isolated wFetcher wLLM [] [("duckduckgo", wEngineB)]
    "google" wEngineBad "q" 5 false "HTTP 500" rfl⟩

/-- C3: enrichment never removes a result: the output has the same length,
and position by position each result is either returned unchanged or
returned with only a `content` value added. -/
theorem fetch_content_never_removes (svc : OmniSearchService)
    (results : List SearchResult) :
    (svc._fetch_content results).length = results.length
    ∧ List.Forall₂ (fun r r' => r' = r ∨ ∃ c, r' = { r with content := some c })
        results (svc._fetch_content results) := by
  constructor
  · simp [OmniSearchService._fetch_content, fetchContentAll]
  · rw [OmniSearchService._fetch_content, fetchContentAll]
    induction results with
    | nil => exact List.Forall₂.nil
    | cons r rs ih =>
      exact List.Forall₂.cons
        (fetchContentBySearchResult_cases svc.fetcher svc.llm_cli r) ih

/-- C5: when the fetch of a result's linked page raises, or the completion
call on the fetched text raises, the per-result enrichment returns the
very same result, its `content` field untouched. -/
theorem enrichment_failure_keeps_result (svc : OmniSearchService) (r : SearchResult)
    (h : (∃ e, svc.fetcher r.link = Except.error e)
       ∨ ∃ raw e, svc.fetcher r.link = Except.ok raw
          ∧ svc.llm_cli [⟨"system", cleanerSystemPrompt⟩, ⟨"user", raw.clean_text⟩]
              = Except.error e) :
    svc._fetch_content_by_search_result r = r := by
  rw [OmniSearchService._fetch_content_by_search_result]
  rcases h with ⟨e, he⟩ | ⟨raw, e, hraw, he⟩
  · simp [fetchContentBySearchResult, he]
  · simp [fetchContentBySearchResult, hraw, he]

/-- C5 witness: a fetcher that raises leaves the result untouched. -/
theorem enrichment_failure_keeps_result_witness :
    (∃ e, wSvcFetchFail.fetcher (sampleResult "x").link = Except.error e)
    ∧ wSvcFetchFail._fetch_content_by_search_result (sampleResult "x")
        = sampleResult "x" :=
  have h : (∃ e, wSvcFetchFail.fetcher (sampleResult "x").link = Except.error e)
       ∨ ∃ raw e, wSvcFetchFail.fetcher (sampleResult "x").link = Except.ok raw
          ∧ wSvcFetchFail.llm_cli
              [⟨"system", cleanerSystemPrompt⟩, ⟨"user", raw.clean_text⟩]
              = Except.error e :=
    Or.inl ⟨"connection refused", rfl⟩
  ⟨⟨"connection refused", rfl⟩,
    enrichment_failure_keeps_result wSvcFetchFail (sampleResult "x") h⟩

/-- C9: enrichment is content-only: erasing the `content` field commutes
with enrichment, so every other field (title, link, snippet,
source_engine, index) and the order and number of results are preserved. -/
theorem fetch_content_frame (svc : OmniSearchService) (results : List SearchResult) :
    (svc._fetch_content results).map eraseContent = results.map eraseContent := by
  rw [OmniSearchService._fetch_content, fetchContentAll, List.map_map]
  apply List.map_congr_left
  intro r _
  rcases fetchContentBySearchResult_cases svc.fetcher svc.llm_cli r with h | ⟨c, h⟩
  · simp [Function.comp, h]
  · simp [Function.comp, h, eraseContent]

/-- C8: requesting an unregistered engine name through the single-engine
path yields the `ValueError` with the exact message from the source, and
the service state (in particular its registry) is returned unchanged. -/
theorem search_by_engine_unconfigured (svc : OmniSearchService)
    (engine_name query : String) (maxResults : Nat) (fc : Bool)
    (h : ∀ p ∈ svc.engines, ¬ p.1 = engine_name) :
    svc.search_by_engine engine_name query maxResults fc
      = (Except.error (SearchError.valueError
          ("Engine " ++ engine_name ++ " not configured")), svc) := by
  have hf : svc.engines.find? (fun p => p.1 = engine_name) = none := by
    rw [List.find?_eq_none]
    intro p hp
    simpa using h p hp
  simp [OmniSearchService.search_by_engine, hf]

/-- C8 witness: asking the google/duckduckgo service for bing. -/
theorem search_by_engine_unconfigured_witness :
    (∀ p ∈ wSvc.engines, ¬ p.1 = "bing")
    ∧ wSvc.search_by_engine "bing" "q" 5 false
      = (Except.error (SearchError.valueError
          ("Engine " ++ "bing" ++ " not configured")), wSvc) :=
  have h : ∀ p ∈ wSvc.engines, ¬ p.1 = "bing" := by decide
  ⟨h, search_by_engine_unconfigured wSvc "bing" "q" 5 false h⟩

theorem perEngineResults_true_eq (fetcher : Fetcher) (llm_cli : LLMClient)
    (query : String) (maxResults : Nat) (p : String × EngineBehavior) :
    perEngineResults fetcher llm_cli query maxResults true p
      = fetchContentAll fetcher llm_cli
          (perEngineResults fetcher llm_cli query maxResults false p) := by
  cases hp : p.2 query maxResults <;>
    simp [perEngineResults, hp, fetchContentAll]

/-- C4 counterexample: with two succeeding engines and enrichment
requested, the run's trace interleaves an enrichment gather between the
two engine searches (one gather per engine), so the asserted
all-searches-complete-first single-barrier discipline is false on this
concrete input. -/
theorem enrichment_single_barrier_refuted :
    singleBatchBarrier ((wSvc.search "q" 5 true).2) = false := by
  decide

/-- C4 amended: enrichment is interleaved per engine — each engine's batch
is enriched under its own gather barrier immediately after that engine's
search, before the next engine is invoked — and the returned list
nevertheless equals enriching the concatenation of all engines' indexed
results in one batch. -/
theorem search_enrichment_per_engine (svc : OmniSearchService) (query : String)
    (maxResults : Nat) :
    (svc.search query maxResults true).1
      = fetchContentAll svc.fetcher svc.llm_cli ((svc.search query maxResults false).1)
    ∧ (svc.search query maxResults true).2
      = (svc.engines.map (perEngineEvents query maxResults true)).flatten := by
  constructor
  · rw [search_characterization, search_characterization]
    dsimp only
    rw [fetchContentAll, List.map_flatten, List.map_map]
    congr 1
    apply List.map_congr_left
    intro p _
    rw [perEngineResults_true_eq]
    simp [fetchContentAll, Function.comp]
  · rw [search_characterization]

theorem cacheGet_setex_self (cache : ResponseCache) (key : String)
    (v : List SearchResult) :
    cacheGet (cacheSetex cache key v) key = some v := by
  simp [cacheGet, cacheSetex]

/-- C6 counterexample: when the first request returns zero results the
handler skips the cache write, so an identical second request issued
within the TTL window misses the cache and invokes the provider again,
contrary to the claim that any identical pair is served from cache with no
provider re-invocation. -/
theorem empty_first_response_reinvokes_provider :
    ((searchHandler wHash wMkEngineEmpty wFetcher wLLM
        (searchHandler wHash wMkEngineEmpty wFetcher wLLM emptyCache wReq).2.1
        wReq).2.2 = [SearchEvent.engineSearch "duckduckgo"])
    ∧ ((searchHandler wHash wMkEngineEmpty wFetcher wLLM
        (searchHandler wHash wMkEngineEmpty wFetcher wLLM emptyCache wReq).2.1
        wReq).2.2 ≠ []) := by
  constructor
  · decide
  · decide

/-- C6 amended: provided the first response carries at least one result
(empty result lists are deliberately not cached), an identical second
request within the TTL window is answered from the cache under the hashed
request-signature key with the identical payload, and no provider event
occurs for it. -/
theorem cache_hit_on_second_identical_request (md5hex : String → String)
    (mkEngine : String → EngineBehavior) (fetcher : Fetcher) (llm_cli : LLMClient)
    (cache : ResponseCache) (req : SearchRequest)
    (h : (searchHandler md5hex mkEngine fetcher llm_cli cache req).1.data ≠ []) :
    (searchHandler md5hex mkEngine fetcher llm_cli
        (searchHandler md5hex mkEngine fetcher llm_cli cache req).2.1 req).1
      = (searchHandler md5hex mkEngine fetcher llm_cli cache req).1
    ∧ (searchHandler md5hex mkEngine fetcher llm_cli
        (searchHandler md5hex mkEngine fetcher llm_cli cache req).2.1 req).2.2
      = [] := by
  cases hc : cacheGet cache (cacheKey md5hex req) with
  | some v =>
    simp [searchHandler, hc]
  | none =>
    simp only [searchHandler, hc] at h ⊢
    have hlen : 0 < ((registerEngines mkEngine
        { engines := [], fetcher := fetcher, llm_cli := llm_cli }
        req.search_engines).search (pyStrip req.query) req.max_results
        req.fetch_content).1.length := List.length_pos.mpr h
    simp only [if_pos hlen, cacheGet_setex_self]
    simp

/-- C6 amended witness: a provider returning one result; the second
identical request is a cache hit with no provider event. -/
theorem cache_hit_on_second_identical_request_witness :
    ((searchHandler wHash wMkEngine wFetcher wLLM emptyCache wReq).1.data ≠ [])
    ∧ ((searchHandler wHash wMkEngine wFetcher wLLM
          (searchHandler wHash wMkEngine wFetcher wLLM emptyCache wReq).2.1 wReq).1
        = (searchHandler wHash wMkEngine wFetcher wLLM emptyCache wReq).1
      ∧ (searchHandler wHash wMkEngine wFetcher wLLM
          (searchHandler wHash wMkEngine wFetcher wLLM emptyCache wReq).2.1 wReq).2.2
        = []) :=
  have h : (searchHandler wHash wMkEngine wFetcher wLLM emptyCache wReq).1.data ≠ [] := by
    decide
  ⟨h, cache_hit_on_second_identical_request wHash wMkEngine wFetcher wLLM
    emptyCache wReq h⟩

/-- C7 counterexample: with no API_KEY configured, a POST /v1/search
request without any Authorization header is rejected with 403 by the
HTTPBearer security dependency, contrary to the claim that it succeeds
without credentials. -/
theorem missing_header_rejected_despite_unset_api_key :
    authorize "" ApiRoute.searchRoute none = Except.error 403 := rfl

/-- C7 amended: the root and health routes answer without any
authentication regardless of API_KEY; POST /v1/search always requires a
syntactically valid Bearer Authorization header (a credential-less request
gets 403 even with API_KEY unset); when API_KEY is unset any bearer token
is accepted, and when API_KEY is configured the token must equal it, a
mismatch yielding 403. -/
theorem auth_policy (api_key token : String) (header : Option BearerCreds)
    (hk : api_key ≠ "") (ht : token ≠ "") (hne : token ≠ api_key) :
    authorize api_key ApiRoute.root header = Except.ok ()
    ∧ authorize api_key ApiRoute.health header = Except.ok ()
    ∧ authorize api_key ApiRoute.searchRoute none = Except.error 403
    ∧ authorize "" ApiRoute.searchRoute (some ⟨"Bearer", token⟩) = Except.ok ()
    ∧ authorize api_key ApiRoute.searchRoute (some ⟨"Bearer", api_key⟩) = Except.ok ()
    ∧ authorize api_key ApiRoute.searchRoute (some ⟨"Bearer", token⟩)
        = Except.error 403 := by
  have hlow : pyLower "Bearer" = "bearer" := by decide
  refine ⟨rfl, rfl, rfl, ?_, ?_, ?_⟩
  · simp [authorize, httpBearerCheck, authBody, routePath, hlow, ht]
  · simp [authorize, httpBearerCheck, authBody, routePath, hlow, hk]
  · simp [authorize, httpBearerCheck, authBody, routePath, hlow, hk, ht, hne]

/-- C7 amended witness: a concrete key and mismatched token. -/
theorem auth_policy_witness :
    (("secret" : String) ≠ "" ∧ ("tok" : String) ≠ "" ∧ ("tok" : String) ≠ "secret")
    ∧ (authorize "secret" ApiRoute.root none = Except.ok ()
      ∧ authorize "secret" ApiRoute.health none = Except.ok ()
      ∧ authorize "secret" ApiRoute.searchRoute none = Except.error 403
      ∧ authorize "" ApiRoute.searchRoute (some ⟨"Bearer", "tok"⟩) = Except.ok ()
      ∧ authorize "secret" ApiRoute.searchRoute (some ⟨"Bearer", "secret"⟩)
          = Except.ok ()
      ∧ authorize "secret" ApiRoute.searchRoute (some ⟨"Bearer", "tok"⟩)
          = Except.error 403) :=
  ⟨⟨by decide, by decide, by decide⟩,
    auth_policy "secret" "tok" none (by decide) (by decide) (by decide)⟩

theorem registerEngines_unrecognized (mkEngine : String → EngineBehavior) :
    ∀ (names : List String) (o : OmniSearchService),
      (∀ n ∈ names, n ≠ "google" ∧ n ≠ "duckduckgo") →
      registerEngines mkEngine o names = o := by
  intro names
  induction names with
  | nil => intro o _; rfl
  | cons n ns ih =>
    intro o h
    have hn := h n (List.mem_cons_self n ns)
    have hstep : registerEngines mkEngine o (n :: ns) = registerEngines mkEngine o ns := by
      simp [registerEngines, hn.1, hn.2]
    rw [hstep]
    exact ih o (fun m hm => h m (List.mem_cons_of_mem n hm))

theorem add_engine_keys (svc : OmniSearchService) (name : String)
    (e : EngineBehavior) (p : String × EngineBehavior)
    (hp : p ∈ (svc.add_engine name e).engines) :
    p.1 = name ∨ p ∈ svc.engines := by
  rw [OmniSearchService.add_engine] at hp
  by_cases hany : svc.engines.any (fun q => q.1 = name)
  · rw [if_pos hany] at hp
    rcases List.mem_map.mp hp with ⟨q, hq, hqe⟩
    by_cases hq1 : q.1 = name
    · rw [if_pos hq1] at hqe
      exact Or.inl (by rw [← hqe])
    · rw [if_neg hq1] at hqe
      exact Or.inr (hqe ▸ hq)
  · rw [if_neg hany] at hp
    rcases List.mem_append.mp hp with h | h
    · exact Or.inr h
    · rcases List.mem_singleton.mp h with h
      exact Or.inl (by rw [h])

theorem registerEngines_keys (mkEngine : String → EngineBehavior) :
    ∀ (names : List String) (o : OmniSearchService),
      (∀ p ∈ o.engines, p.1 = "google" ∨ p.1 = "duckduckgo") →
      ∀ p ∈ (registerEngines mkEngine o names).engines,
        p.1 = "google" ∨ p.1 = "duckduckgo" := by
  intro names
  induction names with
  | nil => intro o h; exact h
  | cons n ns ih =>
    intro o h
    have hunfold : registerEngines mkEngine o (n :: ns)
        = registerEngines mkEngine
            (if n = "google" then o.add_engine "google" (mkEngine "google")
             else if n = "duckduckgo" then
               o.add_engine "duckduckgo" (mkEngine "duckduckgo")
             else o) ns := by
      rw [registerEngines, registerEngines, List.foldl_cons]
    rw [hunfold]
    apply ih
    by_cases h1 : n = "google"
    · rw [if_pos h1]
      intro p hp
      rcases add_engine_keys o "google" (mkEngine "google") p hp with h' | h'
      · exact Or.inl h'
      · exact h p h'
    · rw [if_neg h1]
      by_cases h2 : n = "duckduckgo"
      · rw [if_pos h2]
        intro p hp
        rcases add_engine_keys o "duckduckgo" (mkEngine "duckduckgo") p hp with h' | h'
        · exact Or.inr h'
        · exact h p h'
      · rw [if_neg h2]
        exact h

/-- C10: the handler registers engines only under the names google and
duckduckgo — every other requested name (bing included, its branch being
commented out) is skipped silently — and a request whose engine list
contains only unrecognized names, absent a cached entry, returns an empty
data list with code 0 and message success, with no provider invoked and
the cache left unchanged. -/
theorem unrecognized_engine_names_ignored (md5hex : String → String)
    (mkEngine : String → EngineBehavior) (fetcher : Fetcher) (llm_cli : LLMClient)
    (cache : ResponseCache) (req : SearchRequest)
    (h1 : ∀ n ∈ req.search_engines, n ≠ "google" ∧ n ≠ "duckduckgo")
    (h2 : cacheGet cache (cacheKey md5hex req) = none) :
    (∀ (names : List String) (p : String × EngineBehavior),
        p ∈ (registerEngines mkEngine
          { engines := [], fetcher := fetcher, llm_cli := llm_cli } names).engines →
        p.1 = "google" ∨ p.1 = "duckduckgo")
    ∧ searchHandler md5hex mkEngine fetcher llm_cli cache req
        = ({ data := [], code := 0, message := "success" }, cache, []) := by
  constructor
  · intro names p hp
    exact registerEngines_keys mkEngine names _ (by intro q hq; simp at hq) p hp
  · have hreg := registerEngines_unrecognized mkEngine req.search_engines
      { engines := [], fetcher := fetcher, llm_cli := llm_cli } h1
    simp [searchHandler, h2, hreg, OmniSearchService.search]

/-- C10 witness: a request asking only for bing. -/
theorem unrecognized_engine_names_ignored_witness :
    ((∀ n ∈ wReqBing.search_engines, n ≠ "google" ∧ n ≠ "duckduckgo")
      ∧ cacheGet emptyCache (cacheKey wHash wReqBing) = none)
    ∧ ((∀ (names : List String) (p : String × EngineBehavior),
          p ∈ (registerEngines wMkEngine
            { engines := [], fetcher := wFetcher, llm_cli := wLLM } names).engines →
          p.1 = "google" ∨ p.1 = "duckduckgo")
      ∧ searchHandler wHash wMkEngine wFetcher wLLM emptyCache wReqBing
          = ({ data := [], code := 0, message := "success" }, emptyCache, [])) :=
  have h1 : ∀ n ∈ wReqBing.search_engines, n ≠ "google" ∧ n ≠ "duckduckgo" := by
    decide
  ⟨⟨h1, rfl⟩, unrecognized_engine_names_ignored wHash wMkEngine wFetcher wLLM
    emptyCache wReqBing h1 rfl⟩
